import Mathlib

/-!
Shallow embedding of the OpenCode client plugin (src/main.py).

The plugin keeps two process-wide dictionaries, a session binding map
(field sessions, Python self._sessions) and an attachment map (field
attached, Python self._attached_sessions), both keyed by a session
identity key derived from the inbound event.  Remote HTTP calls are
modelled by an environment of response functions; every router
operation returns the new local state, the ordered list of user-visible
replies, and the ordered trace of remote calls it performed.
-/

namespace OCPlugin

/-- Classification of a failing remote call, mirroring the except
clauses of the Python handlers: an HTTP non-2xx status
(httpx.HTTPStatusError), a transport failure (httpx.RequestError), or
any other exception. -/
inductive CallErr where
  | httpStatus (code : Nat)
  | requestErr (msg : String)
  | exc (msg : String)
deriving DecidableEq, Repr

/-- Result of one remote call: either a decoded payload or a classified
failure. -/
abbrev CallResult (α : Type) := Except CallErr α

/-- Session summary returned by the remote server.  The id field is
modelled as always present because create_session reads it by direct
indexing; title and created_at are optional and read with a default in
the replies. -/
structure Session where
  id : String
  title : Option String
  createdAt : Option String
deriving DecidableEq, Repr

/-- One typed fragment of a reply body, mirroring the part dictionaries
consumed by extract_text_from_parts: a type tag and an optional text
field. -/
structure Part where
  type : String
  text : Option String
deriving DecidableEq, Repr

/-- Command descriptor returned by the remote list_commands call. -/
structure CommandInfo where
  name : Option String
  description : Option String
deriving DecidableEq, Repr

/-- Health payload returned by the remote health call. -/
structure Health where
  healthy : Bool
  version : Option String
deriving DecidableEq, Repr

/-- Structured value produced by parsing the optional JSON argument of
the cmd sub-command.  The router never inspects it, so it is modelled
as an abstract wrapper around the raw text. -/
structure JsonVal where
  raw : String
deriving DecidableEq, Repr

/-- Trace entry recording one remote call together with its arguments,
in the order the router issued them. -/
inductive RemoteCall where
  | createSession (title : String)
  | getSession (id : String)
  | listSessions
  | sendMessage (sessionId : String) (text : String)
  | executeCommand (sessionId : String) (command : String) (args : Option JsonVal)
  | listCommands
  | health
deriving DecidableEq, Repr

/-- Environment of remote responses: for each endpoint, the outcome the
server would return for given arguments.  jsonLoads models the Python
json.loads library call used by the cmd branch (success value or the
message of the raised exception). -/
structure Env where
  createSession : String → CallResult Session
  getSession : String → CallResult Session
  listSessions : CallResult (List Session)
  sendMessage : String → String → CallResult (List Part)
  executeCommand : String → String → Option JsonVal → CallResult (List Part)
  listCommands : CallResult (List CommandInfo)
  health : CallResult Health
  jsonLoads : String → Except String JsonVal

/-- Inbound chat event, exposing the identifiers and text the router
reads from AstrMessageEvent. -/
structure Event where
  platform : String
  sessionId : String
  senderName : String
  messageStr : String
deriving DecidableEq, Repr

/-- Local plugin state: whether self.client is initialized, the session
binding dictionary self._sessions, and the attachment dictionary
self._attached_sessions.  Dictionaries are ordered association lists
with at most one entry per key, as produced by the operations below. -/
structure PluginState where
  clientInit : Bool
  sessions : List (String × String)
  attached : List (String × String)
deriving DecidableEq, Repr

/-- Result of one router operation: the state after the operation, the
replies yielded to the user in order, and the remote calls performed in
order. -/
structure StepResult where
  state : PluginState
  replies : List String
  calls : List RemoteCall
deriving DecidableEq, Repr

/-- Lookup in a Python-style dictionary modelled as an association
list: the value at the first matching key. -/
def dictGet : List (String × String) → String → Option String
  | [], _ => none
  | (k0, v0) :: rest, k => if k0 = k then some v0 else dictGet rest k

/-- Python dictionary assignment d[k] = v: replace the value in place
when the key is present, otherwise append the pair at the end. -/
def dictInsert : List (String × String) → String → String → List (String × String)
  | [], k, v => [(k, v)]
  | (k0, v0) :: rest, k, v =>
      if k0 = k then (k, v) :: rest else (k0, v0) :: dictInsert rest k v

/-- Python del d[k]: drop every entry at the key. -/
def dictErase : List (String × String) → String → List (String × String)
  | [], _ => []
  | (k0, v0) :: rest, k =>
      if k0 = k then dictErase rest k else (k0, v0) :: dictErase rest k

/-- Python membership test k in d. -/
def dictContains (d : List (String × String)) (k : String) : Bool :=
  (dictGet d k).isSome

/-- Whitespace test for the ASCII characters recognised by Python
str.strip and str.split with no separator. -/
def isPySpace (c : Char) : Bool :=
  c == ' ' || c == '\t' || c == '\n' || c == '\r' || c == '\x0b' || c == '\x0c'

/-- Model of Python str.strip with no argument: drop leading and
trailing whitespace. -/
def pyStrip (s : String) : String :=
  String.mk (((s.data.dropWhile isPySpace).reverse.dropWhile isPySpace).reverse)

/-- Helper for pysplit: split a character list on whitespace runs,
performing at most fuel splits; once the budget is exhausted the
remainder, with its leading whitespace removed, is the final piece. -/
def pysplitAux : Nat → List Char → List (List Char)
  | fuel, cs =>
    match cs.dropWhile isPySpace, fuel with
    | [], _ => []
    | c :: rest0, 0 => [c :: rest0]
    | c :: rest0, fuel + 1 =>
        (c :: rest0).takeWhile (fun x => !isPySpace x) ::
          pysplitAux fuel ((c :: rest0).dropWhile (fun x => !isPySpace x))

/-- Model of Python s.split(maxsplit=n) with no separator: tokens are
maximal runs of non-whitespace, at most n splits are performed, and an
empty or all-whitespace string yields the empty list. -/
def pysplit (s : String) (maxsplit : Nat) : List String :=
  (pysplitAux maxsplit s.data).map String.mk

/-- Model of Python ASCII lower-casing of one character, as applied by
str.lower to the command token. -/
def pyLowerChar (c : Char) : Char :=
  if 65 ≤ c.toNat ∧ c.toNat ≤ 90 then Char.ofNat (c.toNat + 32) else c

/-- Model of Python str.lower on the command token. -/
def pyLower (s : String) : String :=
  String.mk (s.data.map pyLowerChar)

/-- Model of Python string slicing s[:n], used to truncate command
descriptions. -/
def pyTake (s : String) (n : Nat) : String :=
  String.mk (s.data.take n)

/-- Embeds extract_text_from_parts (src/main.py lines 105-110): start
from an empty list, append the text field (default empty) of every
part whose type is text, and join with newlines. -/
def extract_text_from_parts (parts : List Part) : String :=
  String.intercalate "\n"
    (parts.foldl
      (fun texts part =>
        if part.type == "text" then texts ++ [part.text.getD ""] else texts)
      [])

/-- Specification-side rendering of a parts list, written from the
words of the spec: keep the text fields of the text-typed parts in
their original order, drop everything else, join by a single
newline. -/
def renderTextParts (parts : List Part) : String :=
  String.intercalate "\n"
    ((parts.filter (fun p => p.type == "text")).map (fun p => p.text.getD ""))

/-- Embeds _get_session_key (src/main.py lines 146-147): the session
identity key combines the platform name and the conversation id. -/
def sessionKey (e : Event) : String :=
  e.platform ++ "_" ++ e.sessionId

/-- Text of the user-visible reply produced by the outer exception
handlers of both the intercept and the command handler (src/main.py
lines 187-195 and 356-364), by failure class. -/
def errText : CallErr → String
  | .httpStatus code => "请求失败: " ++ toString code
  | .requestErr msg => "网络错误: " ++ msg
  | .exc msg => "错误: " ++ msg

/-- Embeds _get_or_create_session (src/main.py lines 149-158): return
the bound remote id for the key when one exists; otherwise (raising
when the client is uninitialized) create a remote session titled after
the sender and record its id as the binding.  Returns the call
outcome, the updated sessions dictionary, and the remote calls made. -/
def getOrCreateSession (env : Env) (st : PluginState) (e : Event) :
    CallResult String × List (String × String) × List RemoteCall :=
  match dictGet st.sessions (sessionKey e) with
  | some sid => (.ok sid, st.sessions, [])
  | none =>
      if st.clientInit = false then
        (.error (.exc "OpenCode Client 未初始化"), st.sessions, [])
      else
        match env.createSession ("AstrBot Session - " ++ e.senderName) with
        | .ok session =>
            (.ok session.id,
             dictInsert st.sessions (sessionKey e) session.id,
             [.createSession ("AstrBot Session - " ++ e.senderName)])
        | .error err =>
            (.error err, st.sessions,
             [.createSession ("AstrBot Session - " ++ e.senderName)])

/-- Embeds the message intercept on_message (src/main.py lines
160-195): with an uninitialized client, no attachment for the key, an
empty attached id, or an all-whitespace message, do nothing; otherwise
forward the stripped text to the attached session and reply with the
rendered parts prefixed by a session header, converting failures with
the outer exception handlers. -/
def on_message (env : Env) (st : PluginState) (e : Event) : StepResult :=
  if st.clientInit = false then ⟨st, [], []⟩
  else
    match dictGet st.attached (sessionKey e) with
    | none => ⟨st, [], []⟩
    | some session_id =>
        if session_id = "" then ⟨st, [], []⟩
        else
          if pyStrip e.messageStr = "" then ⟨st, [], []⟩
          else
            match env.sendMessage session_id (pyStrip e.messageStr) with
            | .ok parts =>
                ⟨st,
                 ["Opencode: " ++ session_id ++ "\n\n---\n" ++
                    (if extract_text_from_parts parts = "" then "(无响应)"
                     else extract_text_from_parts parts)],
                 [.sendMessage session_id (pyStrip e.messageStr)]⟩
            | .error err =>
                ⟨st, [errText err], [.sendMessage session_id (pyStrip e.messageStr)]⟩

/-- Usage text yielded when the command carries no sub-command token
(src/main.py lines 204-217). -/
def usageText : String :=
  "用法: /oc <command> [args]\n命令:\n  /oc chat <message>    - 与 AI 对话\n  /oc session [id]      - 显示/切换会话\n  /oc sessions          - 列出所有会话\n  /oc attach <id>       - 绑定会话，消息自动发送\n  /oc deattach          - 解绑会话\n  /oc new [title]       - 创建新会话\n  /oc clear             - 清除当前会话\n  /oc commands          - 列出可用命令\n  /oc cmd <cmd>         - 执行斜杠命令\n  /oc health            - 检查服务器状态"

/-- Reply yielded by the command handler when self.client is None
(src/main.py line 225). -/
def uninitReply : String :=
  "OpenCode Client 未初始化，请检查配置"

/-- Prompt yielded by the session branch when the key has no binding
(src/main.py lines 253-257). -/
def noActiveReply : String :=
  "当前没有活跃会话，使用 /oc chat 开始对话\n或使用 /oc session {id} 切换会话"

/-- Embeds the chat branch of opencode_command (src/main.py lines
228-237): require a message, get or create the binding, yield a
thinking notice, send the text, and yield the rendered reply with a
session header. -/
def ocChat (env : Env) (st : PluginState) (e : Event) (args : String) : StepResult :=
  if args = "" then ⟨st, ["用法: /oc chat <message>"], []⟩
  else
    match (getOrCreateSession env st e).1 with
    | .error err =>
        ⟨{ st with sessions := (getOrCreateSession env st e).2.1 },
         [errText err], (getOrCreateSession env st e).2.2⟩
    | .ok session_id =>
        match env.sendMessage session_id args with
        | .ok parts =>
            ⟨{ st with sessions := (getOrCreateSession env st e).2.1 },
             ["思考中...",
              "Opencode: " ++ session_id ++ "\n\n---\n" ++
                (if extract_text_from_parts parts = "" then "(无响应)"
                 else extract_text_from_parts parts)],
             (getOrCreateSession env st e).2.2 ++ [.sendMessage session_id args]⟩
        | .error err =>
            ⟨{ st with sessions := (getOrCreateSession env st e).2.1 },
             ["思考中...", errText err],
             (getOrCreateSession env st e).2.2 ++ [.sendMessage session_id args]⟩

/-- Embeds the session branch of opencode_command (src/main.py lines
239-264): with an id argument, verify it remotely and rebind on
success, replying not-found on an HTTP status failure; with no
argument, show the current binding or a prompt. -/
def ocSession (env : Env) (st : PluginState) (e : Event) (args : String) : StepResult :=
  if args = "" then
    match dictGet st.sessions (sessionKey e) with
    | none => ⟨st, [noActiveReply], []⟩
    | some session_id =>
        if session_id = "" then ⟨st, [noActiveReply], []⟩
        else
          match env.getSession session_id with
          | .ok session =>
              ⟨st,
               ["当前会话:\n  ID: " ++ session.id ++ "\n  标题: " ++
                  session.title.getD "N/A" ++ "\n  创建时间: " ++
                  session.createdAt.getD "N/A"],
               [.getSession session_id]⟩
          | .error err => ⟨st, [errText err], [.getSession session_id]⟩
  else
    match env.getSession args with
    | .ok session =>
        ⟨{ st with sessions := dictInsert st.sessions (sessionKey e) args },
         ["已切换到会话:\n  ID: " ++ session.id ++ "\n  标题: " ++
            session.title.getD "N/A"],
         [.getSession args]⟩
    | .error (.httpStatus _) =>
        ⟨st, ["会话不存在: " ++ args], [.getSession args]⟩
    | .error err => ⟨st, [errText err], [.getSession args]⟩

/-- Embeds the sessions branch of opencode_command (src/main.py lines
266-276): list the first ten remote sessions. -/
def ocSessions (env : Env) (st : PluginState) : StepResult :=
  match env.listSessions with
  | .ok sessions =>
      if sessions = [] then ⟨st, ["暂无会话"], [.listSessions]⟩
      else
        ⟨st,
         [String.intercalate "\n"
            ("会话列表:" ::
              (List.enumFrom 1 (sessions.take 10)).map
                (fun p =>
                  "  " ++ toString p.1 ++ ". [" ++ p.2.id ++ "] " ++
                    p.2.title.getD "N/A"))],
         [.listSessions]⟩
  | .error err => ⟨st, [errText err], [.listSessions]⟩

/-- Embeds the new branch of opencode_command (src/main.py lines
278-282): always create a fresh remote session and rebind the key. -/
def ocNew (env : Env) (st : PluginState) (e : Event) (args : String) : StepResult :=
  match env.createSession
      (if args ≠ "" then args else "New Session - " ++ e.senderName) with
  | .ok session =>
      ⟨{ st with sessions := dictInsert st.sessions (sessionKey e) session.id },
       ["已创建新会话: " ++ session.id],
       [.createSession (if args ≠ "" then args else "New Session - " ++ e.senderName)]⟩
  | .error err =>
      ⟨st, [errText err],
       [.createSession (if args ≠ "" then args else "New Session - " ++ e.senderName)]⟩

/-- Embeds the clear branch of opencode_command (src/main.py lines
284-290): delete the binding of the key if present.  The attachment
dictionary is not touched. -/
def ocClear (st : PluginState) (e : Event) : StepResult :=
  if dictContains st.sessions (sessionKey e) then
    ⟨{ st with sessions := dictErase st.sessions (sessionKey e) },
     ["已清除当前会话"], []⟩
  else ⟨st, ["没有活跃会话"], []⟩

/-- Embeds the attach branch of opencode_command (src/main.py lines
292-308): verify the id remotely, and on success write both the
binding and the attachment; an HTTP status failure yields a not-found
reply and leaves the state untouched. -/
def ocAttach (env : Env) (st : PluginState) (e : Event) (args : String) : StepResult :=
  if args = "" then ⟨st, ["用法: /oc attach <session-id>"], []⟩
  else
    match env.getSession args with
    | .ok session =>
        ⟨{ st with sessions := dictInsert st.sessions (sessionKey e) args,
                   attached := dictInsert st.attached (sessionKey e) args },
         ["已绑定会话，消息将自动发送:\n  ID: " ++ session.id ++ "\n  标题: " ++
            session.title.getD "N/A" ++ "\n使用 /oc deattach 解绑"],
         [.getSession args]⟩
    | .error (.httpStatus _) =>
        ⟨st, ["会话不存在: " ++ args], [.getSession args]⟩
    | .error err => ⟨st, [errText err], [.getSession args]⟩

/-- Embeds the deattach branch of opencode_command (src/main.py lines
310-316): delete the attachment of the key if present, leaving the
binding untouched. -/
def ocDeattach (st : PluginState) (e : Event) : StepResult :=
  if dictContains st.attached (sessionKey e) then
    ⟨{ st with attached := dictErase st.attached (sessionKey e) },
     ["已解绑会话，恢复正常模式"], []⟩
  else ⟨st, ["当前未绑定会话"], []⟩

/-- Embeds the commands branch of opencode_command (src/main.py lines
318-328): list the first twenty remote command descriptors with
truncated descriptions. -/
def ocCommands (env : Env) (st : PluginState) : StepResult :=
  match env.listCommands with
  | .ok commands =>
      if commands = [] then ⟨st, ["暂无可用命令"], [.listCommands]⟩
      else
        ⟨st,
         [String.intercalate "\n"
            ("可用命令:" ::
              (commands.take 20).map
                (fun c =>
                  "  /" ++ c.name.getD "N/A" ++ " - " ++
                    pyTake (c.description.getD "") 30))],
         [.listCommands]⟩
  | .error err => ⟨st, [errText err], [.listCommands]⟩

/-- Embeds the cmd branch of opencode_command (src/main.py lines
330-343): get or create the binding, split the argument into a command
name and an optional JSON payload, parse the payload (its failure is
caught by the generic exception handler after the binding write), and
execute the command remotely. -/
def ocCmd (env : Env) (st : PluginState) (e : Event) (args : String) : StepResult :=
  if args = "" then ⟨st, ["用法: /oc cmd <command> [args]"], []⟩
  else
    match (getOrCreateSession env st e).1 with
    | .error err =>
        ⟨{ st with sessions := (getOrCreateSession env st e).2.1 },
         [errText err], (getOrCreateSession env st e).2.2⟩
    | .ok session_id =>
        if 1 < (pysplit args 1).length then
          match env.jsonLoads ((pysplit args 1).getD 1 "") with
          | .error msg =>
              ⟨{ st with sessions := (getOrCreateSession env st e).2.1 },
               ["错误: " ++ msg], (getOrCreateSession env st e).2.2⟩
          | .ok v =>
              match env.executeCommand session_id ((pysplit args 1).getD 0 "") (some v) with
              | .ok parts =>
                  ⟨{ st with sessions := (getOrCreateSession env st e).2.1 },
                   ["执行命令中...",
                    if extract_text_from_parts parts = "" then "命令执行完成"
                    else extract_text_from_parts parts],
                   (getOrCreateSession env st e).2.2 ++
                     [.executeCommand session_id ((pysplit args 1).getD 0 "") (some v)]⟩
              | .error err =>
                  ⟨{ st with sessions := (getOrCreateSession env st e).2.1 },
                   ["执行命令中...", errText err],
                   (getOrCreateSession env st e).2.2 ++
                     [.executeCommand session_id ((pysplit args 1).getD 0 "") (some v)]⟩
        else
          match env.executeCommand session_id ((pysplit args 1).getD 0 "") none with
          | .ok parts =>
              ⟨{ st with sessions := (getOrCreateSession env st e).2.1 },
               ["执行命令中...",
                if extract_text_from_parts parts = "" then "命令执行完成"
                else extract_text_from_parts parts],
               (getOrCreateSession env st e).2.2 ++
                 [.executeCommand session_id ((pysplit args 1).getD 0 "") none]⟩
          | .error err =>
              ⟨{ st with sessions := (getOrCreateSession env st e).2.1 },
               ["执行命令中...", errText err],
               (getOrCreateSession env st e).2.2 ++
                 [.executeCommand session_id ((pysplit args 1).getD 0 "") none]⟩

/-- Embeds the health branch of opencode_command (src/main.py lines
345-351): report health and version of the remote server, rendering
the Python boolean. -/
def ocHealth (env : Env) (st : PluginState) : StepResult :=
  match env.health with
  | .ok h =>
      ⟨st,
       ["OpenCode Server 状态:\n  健康: " ++
          (if h.healthy then "True" else "False") ++ "\n  版本: " ++
          h.version.getD "N/A"],
       [.health]⟩
  | .error err => ⟨st, [errText err], [.health]⟩

/-- Embeds the body of the try block of opencode_command (src/main.py
lines 228-354): dispatch on the lower-cased sub-command token with the
free-text argument, mapping every caught exception to the reply of the
matching except clause.  The command argument is the already
lower-cased token. -/
def ocDispatch (env : Env) (st : PluginState) (e : Event)
    (command args : String) : StepResult :=
  match command with
  | "chat" => ocChat env st e args
  | "session" => ocSession env st e args
  | "sessions" => ocSessions env st
  | "new" => ocNew env st e args
  | "clear" => ocClear st e
  | "attach" => ocAttach env st e args
  | "deattach" => ocDeattach st e
  | "commands" => ocCommands env st
  | "cmd" => ocCmd env st e args
  | "health" => ocHealth env st
  | _ => ⟨st, ["未知命令: " ++ command ++ "\n使用 /oc 查看帮助"], []⟩

/-- Embeds the token handling of opencode_command after parsing
(src/main.py lines 220-226): lower-case the sub-command token, then
short-circuit with a configuration-error reply when the client is
uninitialized, otherwise dispatch. -/
def ocHandleToken (env : Env) (st : PluginState) (e : Event)
    (token args : String) : StepResult :=
  if st.clientInit = false then ⟨st, [uninitReply], []⟩
  else ocDispatch env st e (pyLower token) args

/-- Embeds opencode_command (src/main.py lines 197-364): strip the
message, split it into at most three whitespace-separated pieces, yield
the usage text when no sub-command token is present, and otherwise
handle the token with the optional free-text argument. -/
def opencode_command (env : Env) (st : PluginState) (e : Event) : StepResult :=
  if (pysplit (pyStrip e.messageStr) 2).length < 2 then ⟨st, [usageText], []⟩
  else
    ocHandleToken env st e ((pysplit (pyStrip e.messageStr) 2).getD 1 "")
      (if 2 < (pysplit (pyStrip e.messageStr) 2).length then
        (pysplit (pyStrip e.messageStr) 2).getD 2 ""
      else "")

/-- Agreement invariant between the two dictionaries: every attachment
entry has a session binding entry for the same key with the same
remote id. -/
def SessionInv (st : PluginState) : Prop :=
  ∀ k v, dictGet st.attached k = some v → dictGet st.sessions k = some v

/-- Test for a session-creation entry in a remote-call trace. -/
def RemoteCall.isCreate : RemoteCall → Bool
  | .createSession _ => true
  | _ => false

/-- Lookup after assignment: the assigned key reads the new value and
every other key is unaffected. -/
theorem dictGet_dictInsert (d : List (String × String)) (k v k' : String) :
    dictGet (dictInsert d k v) k' = if k' = k then some v else dictGet d k' := by
  induction d with
  | nil =>
      simp only [dictInsert, dictGet]
      by_cases h : k' = k
      · simp [h]
      · simp [h, Ne.symm h]
  | cons p rest ih =>
      obtain ⟨k0, v0⟩ := p
      simp only [dictInsert]
      by_cases h0 : k0 = k
      · subst h0
        simp only [if_pos rfl, dictGet]
        by_cases h : k' = k0
        · simp [h]
        · simp [h, Ne.symm h]
      · simp only [if_neg h0, dictGet, ih]
        by_cases h1 : k0 = k'
        · subst h1
          simp [fun hh : k0 = k => h0 hh]
        · simp [h1]

/-- Lookup after deletion: the deleted key reads nothing and every
other key is unaffected. -/
theorem dictGet_dictErase (d : List (String × String)) (k k' : String) :
    dictGet (dictErase d k) k' = if k' = k then none else dictGet d k' := by
  induction d with
  | nil => simp [dictErase, dictGet]
  | cons p rest ih =>
      obtain ⟨k0, v0⟩ := p
      simp only [dictErase]
      by_cases h0 : k0 = k
      · subst h0
        rw [if_pos rfl, ih]
        by_cases h : k' = k0
        · simp [h]
        · simp [dictGet, h, Ne.symm h]
      · simp only [if_neg h0, dictGet, ih]
        by_cases h1 : k0 = k'
        · subst h1
          simp [fun hh : k0 = k => h0 hh]
        · simp [h1]

/-- Message intercept never mutates the local state. -/
theorem on_message_state (env : Env) (st : PluginState) (e : Event) :
    (on_message env st e).state = st := by
  unfold on_message
  repeat' split
  all_goals rfl

/-- Inserting a binding at a key with no current binding preserves the
agreement invariant (no attachment can reference that key). -/
theorem sessionInv_insert_unbound (ci : Bool) (s a : List (String × String))
    (k v : String)
    (h : ∀ k' v', dictGet a k' = some v' → dictGet s k' = some v')
    (hk : dictGet s k = none) :
    SessionInv ⟨ci, dictInsert s k v, a⟩ := by
  intro k' v' h'
  have hs := h k' v' h'
  rw [dictGet_dictInsert]
  by_cases hkk : k' = k
  · subst hkk
    rw [hs] at hk
    exact Option.noConfusion hk
  · rw [if_neg hkk]
    exact hs

/-- Inserting the same value into both dictionaries at the same key
preserves the agreement invariant. -/
theorem sessionInv_insert_both (ci : Bool) (s a : List (String × String))
    (k v : String)
    (h : ∀ k' v', dictGet a k' = some v' → dictGet s k' = some v') :
    SessionInv ⟨ci, dictInsert s k v, dictInsert a k v⟩ := by
  intro k' v' h'
  rw [dictGet_dictInsert] at h' ⊢
  by_cases hkk : k' = k
  · rw [if_pos hkk] at h' ⊢
    exact h'
  · rw [if_neg hkk] at h' ⊢
    exact h k' v' h'

/-- Deleting an attachment entry preserves the agreement invariant. -/
theorem sessionInv_erase_attached (ci : Bool) (s a : List (String × String))
    (k : String)
    (h : ∀ k' v', dictGet a k' = some v' → dictGet s k' = some v') :
    SessionInv ⟨ci, s, dictErase a k⟩ := by
  intro k' v' h'
  rw [dictGet_dictErase] at h'
  by_cases hkk : k' = k
  · rw [if_pos hkk] at h'
    exact Option.noConfusion h'
  · rw [if_neg hkk] at h'
    exact h k' v' h'

/-- Get-or-create only ever writes a binding at a key that had none,
so it preserves the agreement invariant for any client flag. -/
theorem sessionInv_getOrCreate (env : Env) (st : PluginState) (e : Event)
    (ci : Bool) (h : SessionInv st) :
    SessionInv ⟨ci, (getOrCreateSession env st e).2.1, st.attached⟩ := by
  unfold getOrCreateSession
  cases hk : dictGet st.sessions (sessionKey e) with
  | some sid => exact h
  | none =>
      by_cases hc : st.clientInit = false
      · rw [if_pos hc]
        exact h
      · rw [if_neg hc]
        cases hcs : env.createSession ("AstrBot Session - " ++ e.senderName) with
        | ok session =>
            exact sessionInv_insert_unbound ci st.sessions st.attached
              (sessionKey e) session.id h hk
        | error err => exact h

/-- Dispatch preserves the agreement invariant for every sub-command
token other than clear, new, and session. -/
theorem ocDispatch_sessionInv (env : Env) (st : PluginState) (e : Event)
    (c a : String) (h : SessionInv st)
    (h1 : c ≠ "clear") (h2 : c ≠ "new") (h3 : c ≠ "session") :
    SessionInv (ocDispatch env st e c a).state := by
  unfold ocDispatch
  split
  · -- chat
    unfold ocChat
    split
    · exact h
    · split
      · exact sessionInv_getOrCreate env st e st.clientInit h
      · split
        · exact sessionInv_getOrCreate env st e st.clientInit h
        · exact sessionInv_getOrCreate env st e st.clientInit h
  · exact absurd rfl h3
  · -- sessions
    unfold ocSessions
    split
    · split
      · exact h
      · exact h
    · exact h
  · exact absurd rfl h2
  · exact absurd rfl h1
  · -- attach
    unfold ocAttach
    split
    · exact h
    · split
      · exact sessionInv_insert_both st.clientInit st.sessions st.attached
          (sessionKey e) a h
      · exact h
      · exact h
  · -- deattach
    unfold ocDeattach
    split
    · exact sessionInv_erase_attached st.clientInit st.sessions st.attached
        (sessionKey e) h
    · exact h
  · -- commands
    unfold ocCommands
    split
    · split
      · exact h
      · exact h
    · exact h
  · -- cmd
    unfold ocCmd
    split
    · exact h
    · split
      · exact sessionInv_getOrCreate env st e st.clientInit h
      · split
        · split
          · exact sessionInv_getOrCreate env st e st.clientInit h
          · split
            · exact sessionInv_getOrCreate env st e st.clientInit h
            · exact sessionInv_getOrCreate env st e st.clientInit h
        · split
          · exact sessionInv_getOrCreate env st e st.clientInit h
          · exact sessionInv_getOrCreate env st e st.clientInit h
  · -- health
    unfold ocHealth
    split
    · exact h
    · exact h
  · exact h

/-- Accumulator form of the extraction loop: folding over the parts
appends exactly the text fields of the text-typed parts, in order. -/
theorem extract_foldl_eq (ps : List Part) (acc : List String) :
    ps.foldl
      (fun texts part =>
        if part.type == "text" then texts ++ [part.text.getD ""] else texts)
      acc
      = acc ++ (ps.filter (fun p => p.type == "text")).map (fun p => p.text.getD "") := by
  induction ps generalizing acc with
  | nil => simp
  | cons p ps ih =>
      simp only [List.foldl_cons, List.filter_cons]
      by_cases hp : (p.type == "text") = true
      · rw [if_pos hp, ih, if_pos hp]
        simp
      · rw [if_neg hp, ih, if_neg hp]

/-- Concrete session fixture used by the closed statements. -/
def sessW : Session := ⟨"S1", some "Demo", some "2024-01-01"⟩

/-- Concrete environment fixture: S1 is the only existing remote
session, creation returns the id NEW1 with the requested title,
sending yields one text part, and JSON parsing always fails with the
usual Python message. -/
def envW : Env where
  createSession := fun t => .ok ⟨"NEW1", some t, none⟩
  getSession := fun i => if i = "S1" then .ok sessW else .error (.httpStatus 404)
  listSessions := .ok [sessW]
  sendMessage := fun _ _ => .ok [⟨"text", some "hi"⟩]
  executeCommand := fun _ _ _ => .ok []
  listCommands := .ok []
  health := .ok ⟨true, some "1.0"⟩
  jsonLoads := fun _ => .error "Expecting value: line 1 column 1 (char 0)"

/-- Concrete environment whose message sending fails with a transport
error. -/
def envSendFail : Env :=
  { envW with sendMessage := fun _ _ => .error (.requestErr "ConnectError") }

/-- Event fixture with fixed identity (key qq_123) and the given
message text. -/
def eventOf (msg : String) : Event := ⟨"qq", "123", "u", msg⟩

/-- State fixture: initialized client, no bindings, no attachments. -/
def stEmpty : PluginState := ⟨true, [], []⟩

/-- State fixture: initialized client, key qq_123 bound and attached
to S1. -/
def stBoth : PluginState := ⟨true, [("qq_123", "S1")], [("qq_123", "S1")]⟩

/-- C1 (amended): the agreement between the Attachment Set and the
Session Binding (every attached key is bound to the same remote id) is
preserved by the message intercept and by every command whose
lower-cased token is not clear, new, or session; those three can break
it, because clear removes only the binding and new and session
overwrite only the binding. -/
theorem C1_router_invariant (env : Env) (st : PluginState) (e : Event)
    (h : SessionInv st)
    (hclear : pyLower ((pysplit (pyStrip e.messageStr) 2).getD 1 "") ≠ "clear")
    (hnew : pyLower ((pysplit (pyStrip e.messageStr) 2).getD 1 "") ≠ "new")
    (hsession : pyLower ((pysplit (pyStrip e.messageStr) 2).getD 1 "") ≠ "session") :
    SessionInv (opencode_command env st e).state ∧
    SessionInv (on_message env st e).state := by
  refine ⟨?_, ?_⟩
  · unfold opencode_command
    split
    · exact h
    · unfold ocHandleToken
      split
      · exact h
      · exact ocDispatch_sessionInv env st e _ _ h hclear hnew hsession
  · rw [on_message_state]
    exact h

/-- C1 (counterexample): in a state where the key qq_123 is both bound
and attached to S1 the invariant holds, but one clear command deletes
the binding while leaving the attachment, so afterwards the attachment
entry has no matching binding entry. -/
theorem C1_clear_counterexample :
    SessionInv stBoth ∧
    ¬ SessionInv (opencode_command envW stBoth (eventOf "oc clear")).state :=
  ⟨fun _ _ hv => hv,
   fun hinv => absurd (hinv "qq_123" "S1" (by decide)) (by decide)⟩

/-- Witness for C1: a health command on an invariant-satisfying state
keeps the invariant for both the command handler and the intercept. -/
theorem C1_router_invariant_witness :
    SessionInv (opencode_command envW stEmpty (eventOf "oc health")).state ∧
    SessionInv (on_message envW stEmpty (eventOf "oc health")).state :=
  C1_router_invariant envW stEmpty (eventOf "oc health")
    (by intro k v hv; simp [stEmpty, dictGet] at hv)
    (by decide) (by decide) (by decide)

/-- C2: the attach command with a non-empty id argument performs
exactly one remote call, a getSession lookup of that id; when the
lookup succeeds both the binding and the attachment of the key are set
to the id; when it fails with an HTTP status error the state is left
untouched and the reply is the not-found message; any other failure
also leaves the state untouched. -/
theorem C2_attach_verify (env : Env) (st : PluginState) (e : Event)
    (a : String) (ha : a ≠ "") :
    (ocDispatch env st e "attach" a).calls = [.getSession a] ∧
    (∀ s, env.getSession a = .ok s →
        dictGet (ocDispatch env st e "attach" a).state.sessions (sessionKey e) = some a ∧
        dictGet (ocDispatch env st e "attach" a).state.attached (sessionKey e) = some a) ∧
    (∀ code, env.getSession a = .error (.httpStatus code) →
        (ocDispatch env st e "attach" a).state = st ∧
        (ocDispatch env st e "attach" a).replies = ["会话不存在: " ++ a]) ∧
    (∀ err, env.getSession a = .error err →
        (ocDispatch env st e "attach" a).state = st) := by
  have hd : ocDispatch env st e "attach" a = ocAttach env st e a := rfl
  rw [hd]
  unfold ocAttach
  rw [if_neg ha]
  cases hg : env.getSession a with
  | ok s =>
      refine ⟨rfl, ?_, ?_, ?_⟩
      · intro s' _
        constructor
        · simp [dictGet_dictInsert]
        · simp [dictGet_dictInsert]
      · intro code hcode
        cases hcode
      · intro err hcode
        cases hcode
  | error err =>
      cases err with
      | httpStatus code =>
          refine ⟨rfl, ?_, ?_, ?_⟩
          · intro s' hs'
            cases hs'
          · intro code' _
            exact ⟨rfl, rfl⟩
          · intro err' _
            rfl
      | requestErr m =>
          refine ⟨rfl, ?_, ?_, ?_⟩
          · intro s' hs'
            cases hs'
          · intro code' hcode'
            simp at hcode'
          · intro err' _
            rfl
      | exc m =>
          refine ⟨rfl, ?_, ?_, ?_⟩
          · intro s' hs'
            cases hs'
          · intro code' hcode'
            simp at hcode'
          · intro err' _
            rfl

/-- Witness for C2: attaching the existing session S1 from the empty
state. -/
theorem C2_attach_verify_witness :
    (ocDispatch envW stEmpty (eventOf "oc attach S1") "attach" "S1").calls
      = [.getSession "S1"] ∧
    (∀ s, envW.getSession "S1" = .ok s →
        dictGet (ocDispatch envW stEmpty (eventOf "oc attach S1") "attach" "S1").state.sessions
          (sessionKey (eventOf "oc attach S1")) = some "S1" ∧
        dictGet (ocDispatch envW stEmpty (eventOf "oc attach S1") "attach" "S1").state.attached
          (sessionKey (eventOf "oc attach S1")) = some "S1") ∧
    (∀ code, envW.getSession "S1" = .error (.httpStatus code) →
        (ocDispatch envW stEmpty (eventOf "oc attach S1") "attach" "S1").state = stEmpty ∧
        (ocDispatch envW stEmpty (eventOf "oc attach S1") "attach" "S1").replies
          = ["会话不存在: " ++ "S1"]) ∧
    (∀ err, envW.getSession "S1" = .error err →
        (ocDispatch envW stEmpty (eventOf "oc attach S1") "attach" "S1").state = stEmpty) :=
  C2_attach_verify envW stEmpty (eventOf "oc attach S1") "S1" (by decide)

/-- C3 (amended): while the remote client is uninitialized, the
message intercept takes no remote action, mutates nothing and emits no
reply at all, and every dispatched command (an event whose stripped
message splits into at least two tokens) takes no remote action and
replies with the configuration-error message. -/
theorem C3_uninitialized (env : Env) (st : PluginState) (e : Event)
    (h : st.clientInit = false) :
    on_message env st e = ⟨st, [], []⟩ ∧
    (2 ≤ (pysplit (pyStrip e.messageStr) 2).length →
      opencode_command env st e = ⟨st, [uninitReply], []⟩) := by
  constructor
  · unfold on_message
    rw [if_pos h]
  · intro hlen
    unfold opencode_command ocHandleToken
    rw [if_neg (by omega), if_pos h]

/-- C3 (counterexample): with an uninitialized client, an attached key
and a non-empty message, the intercept emits no reply at all, against
the configuration-error reply the claim requires. -/
theorem C3_silent_intercept_counterexample :
    (⟨false, [], [("qq_123", "S1")]⟩ : PluginState).clientInit = false ∧
    on_message envW ⟨false, [], [("qq_123", "S1")]⟩ (eventOf "hello")
      = ⟨⟨false, [], [("qq_123", "S1")]⟩, [], []⟩ :=
  ⟨rfl, rfl⟩

/-- Witness for C3: a health command on an uninitialized state. -/
theorem C3_uninitialized_witness :
    on_message envW ⟨false, [], []⟩ (eventOf "oc health") = ⟨⟨false, [], []⟩, [], []⟩ ∧
    (2 ≤ (pysplit (pyStrip (eventOf "oc health").messageStr) 2).length →
      opencode_command envW ⟨false, [], []⟩ (eventOf "oc health")
        = ⟨⟨false, [], []⟩, [uninitReply], []⟩) :=
  C3_uninitialized envW ⟨false, [], []⟩ (eventOf "oc health") rfl

/-- C4: the rendered reply equals the text fields of the text-typed
parts in their original order joined by single newlines with all other
parts dropped, and the concrete list of a text part A, an image part
and a text part B renders as A, newline, B. -/
theorem C4_render_parts :
    (∀ parts : List Part, extract_text_from_parts parts = renderTextParts parts) ∧
    extract_text_from_parts
      [⟨"text", some "A"⟩, ⟨"image", none⟩, ⟨"text", some "B"⟩] = "A\nB" :=
  ⟨fun parts => by
      unfold extract_text_from_parts renderTextParts
      rw [extract_foldl_eq parts []]
      simp,
   by decide⟩

/-- Get-or-create at an unbound key with an initialized client and a
successful creation: it creates one session and writes the binding. -/
theorem getOrCreate_unbound (env : Env) (st : PluginState) (e : Event) (s : Session)
    (hub : dictGet st.sessions (sessionKey e) = none)
    (hci : st.clientInit = true)
    (hcs : env.createSession ("AstrBot Session - " ++ e.senderName) = .ok s) :
    getOrCreateSession env st e =
      (.ok s.id, dictInsert st.sessions (sessionKey e) s.id,
       [.createSession ("AstrBot Session - " ++ e.senderName)]) := by
  unfold getOrCreateSession
  rw [hub, hci, hcs]
  rfl

/-- Get-or-create at a bound key: it reuses the binding and performs
no remote call. -/
theorem getOrCreate_bound (env : Env) (st : PluginState) (e : Event) (sid : String)
    (hb : dictGet st.sessions (sessionKey e) = some sid) :
    getOrCreateSession env st e = (.ok sid, st.sessions, []) := by
  unfold getOrCreateSession
  rw [hb]

/-- C5: a chat command on a key with no binding creates exactly one
remote session, titled after the sender, and stores the returned id as
the binding; a chat command on a bound key creates nothing, sends to
the bound id and leaves the state unchanged. -/
theorem C5_chat_get_or_create (env : Env) (st : PluginState) (e : Event)
    (a : String) (s : Session) (ha : a ≠ "") (hci : st.clientInit = true) :
    (dictGet st.sessions (sessionKey e) = none →
      env.createSession ("AstrBot Session - " ++ e.senderName) = .ok s →
      ((ocDispatch env st e "chat" a).calls.countP RemoteCall.isCreate = 1 ∧
        RemoteCall.createSession ("AstrBot Session - " ++ e.senderName) ∈
          (ocDispatch env st e "chat" a).calls ∧
        dictGet (ocDispatch env st e "chat" a).state.sessions (sessionKey e)
          = some s.id)) ∧
    (∀ sid, dictGet st.sessions (sessionKey e) = some sid →
      ((ocDispatch env st e "chat" a).calls.countP RemoteCall.isCreate = 0 ∧
        RemoteCall.sendMessage sid a ∈ (ocDispatch env st e "chat" a).calls ∧
        (ocDispatch env st e "chat" a).state = st)) := by
  have hd : ocDispatch env st e "chat" a = ocChat env st e a := rfl
  rw [hd]
  unfold ocChat
  rw [if_neg ha]
  constructor
  · intro hub hcs
    rw [getOrCreate_unbound env st e s hub hci hcs]
    dsimp only
    cases hsm : env.sendMessage s.id a with
    | ok parts =>
        simp [hsm, List.countP_cons, RemoteCall.isCreate, dictGet_dictInsert]
    | error err =>
        simp [hsm, List.countP_cons, RemoteCall.isCreate, dictGet_dictInsert]
  · intro sid hb
    rw [getOrCreate_bound env st e sid hb]
    dsimp only
    cases hsm : env.sendMessage sid a with
    | ok parts =>
        simp [hsm, List.countP_cons, RemoteCall.isCreate]
    | error err =>
        simp [hsm, List.countP_cons, RemoteCall.isCreate]

/-- Witness for C5: one chat on the empty state. -/
theorem C5_chat_get_or_create_witness :
    (dictGet stEmpty.sessions (sessionKey (eventOf "oc chat hi")) = none →
      envW.createSession ("AstrBot Session - " ++ (eventOf "oc chat hi").senderName)
        = .ok ⟨"NEW1", some "AstrBot Session - u", none⟩ →
      ((ocDispatch envW stEmpty (eventOf "oc chat hi") "chat" "hi").calls.countP
          RemoteCall.isCreate = 1 ∧
        RemoteCall.createSession
            ("AstrBot Session - " ++ (eventOf "oc chat hi").senderName) ∈
          (ocDispatch envW stEmpty (eventOf "oc chat hi") "chat" "hi").calls ∧
        dictGet (ocDispatch envW stEmpty (eventOf "oc chat hi") "chat" "hi").state.sessions
          (sessionKey (eventOf "oc chat hi"))
          = some (Session.mk "NEW1" (some "AstrBot Session - u") none).id)) ∧
    (∀ sid, dictGet stEmpty.sessions (sessionKey (eventOf "oc chat hi")) = some sid →
      ((ocDispatch envW stEmpty (eventOf "oc chat hi") "chat" "hi").calls.countP
          RemoteCall.isCreate = 0 ∧
        RemoteCall.sendMessage sid "hi" ∈
          (ocDispatch envW stEmpty (eventOf "oc chat hi") "chat" "hi").calls ∧
        (ocDispatch envW stEmpty (eventOf "oc chat hi") "chat" "hi").state = stEmpty)) :=
  C5_chat_get_or_create envW stEmpty (eventOf "oc chat hi") "hi"
    ⟨"NEW1", some "AstrBot Session - u", none⟩ (by decide) rfl

/-- C6: a session command whose id argument is unknown to the remote
server leaves the whole local state unaltered and replies with the
not-found message. -/
theorem C6_session_not_found (env : Env) (st : PluginState) (e : Event)
    (a : String) (code : Nat) (ha : a ≠ "")
    (hg : env.getSession a = .error (.httpStatus code)) :
    (ocDispatch env st e "session" a).state = st ∧
    (ocDispatch env st e "session" a).replies = ["会话不存在: " ++ a] := by
  have hd : ocDispatch env st e "session" a = ocSession env st e a := rfl
  rw [hd]
  unfold ocSession
  rw [if_neg ha, hg]
  exact ⟨rfl, rfl⟩

/-- Witness for C6: switching to the unknown session S2. -/
theorem C6_session_not_found_witness :
    (ocDispatch envW stBoth (eventOf "oc session S2") "session" "S2").state = stBoth ∧
    (ocDispatch envW stBoth (eventOf "oc session S2") "session" "S2").replies
      = ["会话不存在: " ++ "S2"] :=
  C6_session_not_found envW stBoth (eventOf "oc session S2") "S2" 404
    (by decide) rfl

/-- C7: when the key has no attachment entry, or the message is empty
after trimming, the intercept performs no remote call, emits no reply
and mutates no state. -/
theorem C7_intercept_no_action (env : Env) (st : PluginState) (e : Event)
    (h : dictGet st.attached (sessionKey e) = none ∨ pyStrip e.messageStr = "") :
    on_message env st e = ⟨st, [], []⟩ := by
  unfold on_message
  by_cases hc : st.clientInit = false
  · rw [if_pos hc]
  · rw [if_neg hc]
    rcases h with h | h
    · rw [h]
    · cases hd : dictGet st.attached (sessionKey e) with
      | none => rfl
      | some sid =>
          by_cases hs : sid = ""
          · simp [hs]
          · simp [hs, h]

/-- Witness for C7: an unattached key with a non-empty message. -/
theorem C7_intercept_no_action_witness :
    on_message envW stEmpty (eventOf "hello") = ⟨stEmpty, [], []⟩ :=
  C7_intercept_no_action envW stEmpty (eventOf "hello") (Or.inl (by decide))

/-- C8: when sending from the intercept fails, the intercept emits the
single classified error reply of the matching handler and leaves the
whole local state, bindings and attachments included, unchanged. -/
theorem C8_intercept_send_failure (env : Env) (st : PluginState) (e : Event)
    (sid : String) (err : CallErr)
    (hci : st.clientInit = true)
    (hat : dictGet st.attached (sessionKey e) = some sid)
    (hsid : sid ≠ "")
    (hmsg : pyStrip e.messageStr ≠ "")
    (hfail : env.sendMessage sid (pyStrip e.messageStr) = .error err) :
    (on_message env st e).state = st ∧
    (on_message env st e).replies = [errText err] ∧
    (on_message env st e).calls = [.sendMessage sid (pyStrip e.messageStr)] := by
  unfold on_message
  simp [hci, hat, hsid, hmsg, hfail]

/-- Witness for C8: an attached key whose send fails with a transport
error. -/
theorem C8_intercept_send_failure_witness :
    (on_message envSendFail stBoth (eventOf "hello")).state = stBoth ∧
    (on_message envSendFail stBoth (eventOf "hello")).replies
      = [errText (.requestErr "ConnectError")] ∧
    (on_message envSendFail stBoth (eventOf "hello")).calls
      = [.sendMessage "S1" (pyStrip (eventOf "hello").messageStr)] :=
  C8_intercept_send_failure envSendFail stBoth (eventOf "hello") "S1"
    (.requestErr "ConnectError") rfl (by decide) (by decide) (by decide) rfl

/-- C9: a cmd invocation on an unbound key whose structured argument
fails to parse still creates the remote session and writes the binding
before the parse failure, and that binding persists in the final state
alongside the parse-error reply; no command is executed remotely. -/
theorem C9_cmd_binding_persists (env : Env) (st : PluginState) (e : Event)
    (a : String) (s : Session) (msg : String)
    (ha : a ≠ "")
    (hci : st.clientInit = true)
    (hub : dictGet st.sessions (sessionKey e) = none)
    (hcs : env.createSession ("AstrBot Session - " ++ e.senderName) = .ok s)
    (hlen : 1 < (pysplit a 1).length)
    (hjson : env.jsonLoads ((pysplit a 1).getD 1 "") = .error msg) :
    ocDispatch env st e "cmd" a =
      ⟨{ st with sessions := dictInsert st.sessions (sessionKey e) s.id },
       ["错误: " ++ msg],
       [.createSession ("AstrBot Session - " ++ e.senderName)]⟩ ∧
    dictGet (ocDispatch env st e "cmd" a).state.sessions (sessionKey e)
      = some s.id := by
  have hd : ocDispatch env st e "cmd" a = ocCmd env st e a := rfl
  have h1 : ocDispatch env st e "cmd" a =
      ⟨{ st with sessions := dictInsert st.sessions (sessionKey e) s.id },
       ["错误: " ++ msg],
       [.createSession ("AstrBot Session - " ++ e.senderName)]⟩ := by
    rw [hd]
    unfold ocCmd
    rw [if_neg ha, getOrCreate_unbound env st e s hub hci hcs]
    dsimp only
    rw [if_pos hlen, hjson]
  refine ⟨h1, ?_⟩
  rw [h1]
  simp [dictGet_dictInsert]

/-- Witness for C9: a cmd with an unparsable second token on the empty
state. -/
theorem C9_cmd_binding_persists_witness :
    ocDispatch envW stEmpty (eventOf "oc cmd foo bar") "cmd" "foo bar" =
      ⟨{ stEmpty with
          sessions := dictInsert stEmpty.sessions
            (sessionKey (eventOf "oc cmd foo bar"))
            (Session.mk "NEW1" (some "AstrBot Session - u") none).id },
       ["错误: " ++ "Expecting value: line 1 column 1 (char 0)"],
       [.createSession ("AstrBot Session - " ++ (eventOf "oc cmd foo bar").senderName)]⟩ ∧
    dictGet (ocDispatch envW stEmpty (eventOf "oc cmd foo bar") "cmd" "foo bar").state.sessions
      (sessionKey (eventOf "oc cmd foo bar"))
      = some (Session.mk "NEW1" (some "AstrBot Session - u") none).id :=
  C9_cmd_binding_persists envW stEmpty (eventOf "oc cmd foo bar") "foo bar"
    ⟨"NEW1", some "AstrBot Session - u", none⟩ "Expecting value: line 1 column 1 (char 0)"
    (by decide) rfl (by decide) rfl (by decide) rfl

/-- C10: the sub-command token is lower-cased before dispatch, so two
tokens with the same lower-casing are handled identically, whatever
the state, environment and argument. -/
theorem C10_token_case_insensitive (env : Env) (st : PluginState) (e : Event)
    (t1 t2 a : String) (h : pyLower t1 = pyLower t2) :
    ocHandleToken env st e t1 a = ocHandleToken env st e t2 a := by
  unfold ocHandleToken
  rw [h]

/-- Witness for C10: the tokens CHAT and chat dispatch identically. -/
theorem C10_token_case_insensitive_witness :
    ocHandleToken envW stEmpty (eventOf "oc CHAT hi") "CHAT" "hi"
      = ocHandleToken envW stEmpty (eventOf "oc CHAT hi") "chat" "hi" :=
  C10_token_case_insensitive envW stEmpty (eventOf "oc CHAT hi") "CHAT" "chat" "hi"
    (by decide)

end OCPlugin
